import Mathlib

/-!
Verification of the MailSender authenticated send pipeline.

Shallow embedding of the core components:
- `ErrorHandler` (src/utils/error-handler.js): error classification and
  recovery strategies;
- `Validator` (src/unnamed/part_005): email / configuration validation;
- `GmailApiService` (src/unnamed/part_003): message building and the
  send / retry state machine;
- `AuthService` (src/unnamed/part_002): token acquisition;
- `EmailService` (src/src/services/email.service.js): the send orchestrator.

JavaScript conventions used throughout the embedding:
- a JS error value is either a plain string or an object carrying a
  `message` string and optional numeric `code` / `status` fields
  (`RawError` below); a missing `message` is modelled as `""` (the code
  normalises with `error.message || ''`);
- falsy checks on strings are `= ""`, falsy checks on numbers are `= 0`,
  `null`/`undefined` inputs are `Option.none`;
- `String.prototype.includes` is case-sensitive substring containment
  (`includes` below);
- asynchronous collaborators (identity provider, key-value store, mail
  endpoint) are supplied as environment records, and potentially
  non-terminating recursion is indexed by explicit fuel.
-/

/-- Error object shape: `message`, and optional numeric `code` / `status`
fields (as set by `_makeApiRequest`: `error.status = response.status`). -/
structure JsError where
  message : String
  code : Option Nat := none
  status : Option Nat := none

deriving DecidableEq, Repr

/-- A raw JS error is either a plain string or an error object
(`classifyError` accepts both: `typeof error === 'string' ? error : error.message`). -/
inductive RawError where
  | str (s : String)
  | obj (e : JsError)

deriving DecidableEq, Repr

/-- Contiguous-sublist test on character lists (helper for `includes`). -/
def charsContain (sub : List Char) : List Char → Bool
  | [] => sub.isEmpty
  | c :: rest => sub.isPrefixOf (c :: rest) || charsContain sub rest

/-- JS `s.includes(sub)`: case-sensitive substring test. -/
def includes (s sub : String) : Bool :=
  charsContain sub.data s.data

/-- JS `a || b` on optional numbers where `0`, `null` and `undefined` are falsy. -/
def jsNumOr (a b : Option Nat) : Option Nat :=
  match a with
  | some n => if n = 0 then b else some n
  | none => b

/-- The `errorCode` computed by `classifyError`:
`const errorCode = error.code || error.status || ''` (the empty string is
modelled as `none`; a string error has neither field). -/
def rawCodeOf : RawError → Option Nat
  | .str _ => none
  | .obj e => jsNumOr e.code (jsNumOr e.status none)

/-- Message text of a raw error
(`typeof error === 'string' ? error : error.message || ''`). -/
def messageOf : RawError → String
  | .str s => s
  | .obj e => e.message

/-- JS `errorCode >= 500` (false when `errorCode` is the empty string, since
`'' >= 500` is false). -/
def codeAtLeast500 : Option Nat → Bool
  | some n => 500 ≤ n
  | none => false

/-- ErrorHandler.classifyError (src/utils/error-handler.js:70-127), with the
guards in source order. A falsy error (`!error`) is `none`. -/
def classifyError (error : Option RawError) : String :=
  match error with
  | none => "unknown"
  | some e =>
    let errorMessage := messageOf e
    let errorCode := rawCodeOf e
    if includes errorMessage "token" && includes errorMessage "expired" then
      "auth.token_expired"
    else if includes errorMessage "invalid_grant" || includes errorMessage "unauthorized" then
      "auth.invalid_credentials"
    else if includes errorMessage "permission" || errorCode == some 403 then
      "auth.permission_denied"
    else if includes errorMessage "verification" || includes errorMessage "not completed" then
      "auth.verification_required"
    else if errorCode == some 429 || includes errorMessage "rate limit" then
      "api.rate_limit"
    else if codeAtLeast500 errorCode || includes errorMessage "server error" then
      "api.server_error"
    else if includes errorMessage "network" || includes errorMessage "fetch" then
      "api.network_error"
    else if includes errorMessage "email" && includes errorMessage "invalid" then
      "validation.invalid_email"
    else if includes errorMessage "file" && includes errorMessage "large" then
      "validation.file_too_large"
    else if includes errorMessage "required" then
      "validation.missing_field"
    else if includes errorMessage "quota" || includes errorMessage "QUOTA_BYTES" then
      "storage.quota_exceeded"
    else
      "unknown"

/-- Recovery strategy record (ErrorHandler.RECOVERY_STRATEGIES entries). -/
structure RecoveryStrategy where
  action : String
  userMessage : String
  autoRetry : Bool
  maxRetries : Option Nat := none

deriving DecidableEq, Repr

/-- ErrorHandler.RECOVERY_STRATEGIES (src/utils/error-handler.js:36-63):
a partial map from error type to strategy (absent keys are `none`). -/
def RECOVERY_STRATEGIES (errorType : String) : Option RecoveryStrategy :=
  if errorType = "auth.token_expired" then
    some { action := "refresh_token"
           userMessage := "Session expired. Refreshing authentication..."
           autoRetry := true, maxRetries := some 1 }
  else if errorType = "api.rate_limit" then
    some { action := "exponential_backoff"
           userMessage := "Rate limit reached. Retrying in a moment..."
           autoRetry := true, maxRetries := some 3 }
  else if errorType = "validation.file_too_large" then
    some { action := "user_action_required"
           userMessage := "File is too large. Please select a smaller file."
           autoRetry := false }
  else if errorType = "api.network_error" then
    some { action := "retry"
           userMessage := "Network error. Retrying..."
           autoRetry := true, maxRetries := some 2 }
  else
    none

/-- ErrorHandler.isRetryableError (src/utils/error-handler.js:134-137):
`strategy ? strategy.autoRetry : false`. -/
def isRetryableError (errorType : String) : Bool :=
  match RECOVERY_STRATEGIES errorType with
  | some strategy => strategy.autoRetry
  | none => false

/-- ErrorHandler.getUserMessage (src/utils/error-handler.js:144-164).
The argument is a real (non-null) error value, as at every call site. -/
def getUserMessage (error : RawError) : String :=
  match RECOVERY_STRATEGIES (classifyError (some error)) with
  | some strategy => strategy.userMessage
  | none =>
    let errorMessage := messageOf error
    if includes errorMessage "network" then
      "Network connection error. Please check your internet connection."
    else if includes errorMessage "file" then
      "File processing error. Please try with a different file."
    else
      "An unexpected error occurred. Please try again."

/-- ErrorHandler.getActionableMessage (src/utils/error-handler.js:171-184). -/
def getActionableMessage (error : RawError) : String :=
  let errorType := classifyError (some error)
  if errorType = "auth.token_expired" then
    "Please click \"Authenticate Gmail\" to refresh your session."
  else if errorType = "auth.verification_required" then
    "Please add yourself as a test user in Google Cloud Console."
  else if errorType = "validation.file_too_large" then
    "Please select a file smaller than 1MB."
  else if errorType = "validation.invalid_email" then
    "Please enter a valid email address."
  else if errorType = "storage.quota_exceeded" then
    "Please select a smaller file or clear some storage."
  else if errorType = "api.network_error" then
    "Please check your internet connection and try again."
  else
    "Please try again or contact support if the problem persists."

/-- Context object passed to `createErrorResponse` (only the fields the
pipeline actually sets: `recipient`, `attempts`, `retriesExhausted`). -/
structure ErrCtx where
  recipient : Option String := none
  attempts : Option Nat := none
  retriesExhausted : Bool := false

deriving DecidableEq, Repr

/-- Standardized error response built by ErrorHandler.createErrorResponse
(src/utils/error-handler.js:215-230); `success` is always `false` there, so
it is not a field. The `timestamp` is wall-clock I/O and is omitted. -/
structure ErrorResponse where
  errorType : String
  message : String
  actionableMessage : String
  isRetryable : Bool
  context : ErrCtx := {}

deriving DecidableEq, Repr

/-- ErrorHandler.createErrorResponse (src/utils/error-handler.js:215-230). -/
def createErrorResponse (error : RawError) (context : ErrCtx := {}) : ErrorResponse :=
  { errorType := classifyError (some error)
    message := getUserMessage error
    actionableMessage := getActionableMessage error
    isRetryable := isRetryableError (classifyError (some error))
    context := context }

/-- Predicate: no guard of `classifyError` matches this error (each conjunct
negates one source guard, in source order). -/
def noGuardMatches (e : RawError) : Bool :=
  let m := messageOf e
  let c := rawCodeOf e
  !(includes m "token" && includes m "expired") &&
  !(includes m "invalid_grant" || includes m "unauthorized") &&
  !(includes m "permission" || c == some 403) &&
  !(includes m "verification" || includes m "not completed") &&
  !(c == some 429 || includes m "rate limit") &&
  !(codeAtLeast500 c || includes m "server error") &&
  !(includes m "network" || includes m "fetch") &&
  !(includes m "email" && includes m "invalid") &&
  !(includes m "file" && includes m "large") &&
  !(includes m "required") &&
  !(includes m "quota" || includes m "QUOTA_BYTES")

/-- Email data passed to the builder (`emailData`: to / subject / body). -/
structure EmailData where
  «to» : String
  subject : String
  body : String

deriving DecidableEq, Repr

/-- Attachment object prepared by `EmailService._prepareAttachments`:
`name`, base64 `data`, and optional MIME `type` (JS falsy type is `none`). -/
structure Attachment where
  name : String
  data : String
  type : Option String := none

deriving DecidableEq, Repr

/-- JS `Array.prototype.join('\r\n')`: elements separated by CRLF. -/
def joinCRLF : List String → String
  | [] => ""
  | [s] => s
  | s :: t :: rest => s ++ "\r\n" ++ joinCRLF (t :: rest)

/-- The line array assembled by GmailApiService._buildEmailMessage
(src/unnamed/part_003:45-91) before the final `join('\r\n')`; the boundary
(randomly generated by `_generateBoundary` in the source) is a parameter. -/
def buildEmailMessageLines (emailData : EmailData) (attachments : List Attachment)
    (boundary : String) : List String :=
  let hasAttachments := !attachments.isEmpty
  let headers := ["To: " ++ emailData.«to», "Subject: " ++ emailData.subject, "MIME-Version: 1.0"]
  if hasAttachments then
    headers
      ++ ["Content-Type: multipart/mixed; boundary=\"" ++ boundary ++ "\""]
      ++ [""]
      ++ ["--" ++ boundary, "Content-Type: text/plain; charset=UTF-8", "", emailData.body, ""]
      ++ (attachments.flatMap fun attachment =>
            ["--" ++ boundary,
             "Content-Type: " ++ attachment.type.getD "application/octet-stream",
             "Content-Disposition: attachment; filename=\"" ++ attachment.name ++ "\"",
             "Content-Transfer-Encoding: base64",
             "",
             attachment.data,
             ""])
      ++ ["--" ++ boundary ++ "--"]
  else
    headers ++ ["Content-Type: text/plain; charset=UTF-8"] ++ [""] ++ [emailData.body]

/-- GmailApiService._buildEmailMessage: the assembled lines joined with CRLF. -/
def buildEmailMessage (emailData : EmailData) (attachments : List Attachment)
    (boundary : String) : String :=
  joinCRLF (buildEmailMessageLines emailData attachments boundary)

/-- Split a character list at every CRLF pair (helper for `splitCRLF`). -/
def splitCRLFChars : List Char → List (List Char)
  | [] => [[]]
  | [c] => [[c]]
  | c :: d :: rest =>
    if c = '\r' ∧ d = '\n' then
      [] :: splitCRLFChars rest
    else
      match splitCRLFChars (d :: rest) with
      | [] => [[c]]
      | l :: ls => (c :: l) :: ls

/-- Split a string into its CRLF-separated lines. -/
def splitCRLF (s : String) : List String :=
  (splitCRLFChars s.data).map String.mk

/-- Modelled from the claim: a boundary-marker line of the produced envelope
(the line opening the next part, or the closing delimiter). -/
def isBoundaryMarker (boundary line : String) : Bool :=
  line == "--" ++ boundary || line == "--" ++ boundary ++ "--"

/-- Modelled from the claim: drop the blank line that precedes the boundary
marker (it separates the base64 payload from the delimiter). -/
def dropTrailingBlanks (lines : List String) : List String :=
  (lines.reverse.dropWhile fun l => l == "").reverse

/-- Modelled from the claim: parse the produced envelope's attachment part —
split the envelope into CRLF-separated lines, find the
`Content-Transfer-Encoding: base64` header, skip the blank header/content
separator, and take the payload lines up to the next boundary marker. -/
def extractAttachmentData (envelope boundary : String) : Option String :=
  match (splitCRLF envelope).dropWhile (fun l => l != "Content-Transfer-Encoding: base64") with
  | [] => none
  | _ :: afterHeader =>
    let content := if afterHeader.head? == some "" then afterHeader.tail else afterHeader
    some (joinCRLF (dropTrailingBlanks
      (content.takeWhile fun l => !(isBoundaryMarker boundary l))))

/-- Mail-API success response body (`{id, threadId}`). -/
structure ApiResponse where
  id : Option String := none
  threadId : Option String := none

deriving DecidableEq, Repr

/-- Environment for GmailApiService.sendEmail: the outcomes of its awaited
collaborators. `tokenResult` is `authService.getValidToken()`; `apiResult n`
is the outcome of the (n+1)-st POST to the mail endpoint (`_makeApiRequest`
throws a `JsError` carrying the response's message and status on non-2xx,
or the fetch failure itself); `handleAuthErrorResult` is
`authService.handleAuthError(error)`. -/
structure SendEnv where
  tokenResult : Except JsError String
  apiResult : Nat → Except JsError ApiResponse
  handleAuthErrorResult : Except JsError String

/-- GmailApiService constructor field `this.maxRetries = 3`. -/
def gmailMaxRetries : Nat := 3

/-- Result of one `sendEmail` call: `{success: true, messageId, threadId}`
or the error response produced by the handler chain. -/
inductive SendOutcome where
  | ok (messageId threadId : Option String)
  | err (resp : ErrorResponse)

deriving DecidableEq, Repr

mutual
/-- GmailApiService.sendEmail (src/unnamed/part_003:18-37), fuel-indexed.
The second `Nat` counts POSTs made to the mail endpoint so far; the result
is `none` when the fuel runs out before the call settles. The body of
`sendEmail` is entirely wrapped in try/catch, so its promise never rejects:
each collaborator failure flows into `_handleApiError`. -/
def sendEmailF (env : SendEnv) : Nat → Nat → Option SendOutcome × Nat
  | 0, calls => (none, calls)
  | fuel + 1, calls =>
    match env.tokenResult with
    | .error e => handleApiErrorF env fuel calls e
    | .ok _token =>
      match env.apiResult calls with
      | .ok resp => (some (.ok resp.id resp.threadId), calls + 1)
      | .error e => handleApiErrorF env fuel (calls + 1) e

/-- GmailApiService._handleApiError (src/unnamed/part_003:135-165). -/
def handleApiErrorF (env : SendEnv) : Nat → Nat → JsError → Option SendOutcome × Nat
  | 0, calls, _ => (none, calls)
  | fuel + 1, calls, error =>
    let errorType := classifyError (some (.obj error))
    if errorType = "auth.token_expired" then
      match env.handleAuthErrorResult with
      | .ok _ => sendEmailF env fuel calls
      | .error authError => (some (.err (createErrorResponse (.obj authError))), calls)
    else if errorType = "api.rate_limit" then
      handleRateLimitF env fuel calls error
    else if errorType = "api.network_error" then
      retryWithBackoffF env fuel calls 1
    else
      (some (.err (createErrorResponse (.obj error))), calls)

/-- GmailApiService._handleRateLimit (src/unnamed/part_003:174-181): sleep
(a no-op here), then enter the backoff path at attempt 1. -/
def handleRateLimitF (env : SendEnv) : Nat → Nat → JsError → Option SendOutcome × Nat
  | 0, calls, _ => (none, calls)
  | fuel + 1, calls, _error => retryWithBackoffF env fuel calls 1

/-- GmailApiService._retryWithBackoff (src/unnamed/part_003:190-207). Its
catch branch (`attempt + 1`) is reproduced nowhere because `sendEmail`
never rejects (see `sendEmailF`), making that branch dead code. -/
def retryWithBackoffF (env : SendEnv) : Nat → Nat → Nat → Option SendOutcome × Nat
  | 0, calls, _ => (none, calls)
  | fuel + 1, calls, attempt =>
    if attempt > gmailMaxRetries then
      (some (.err (createErrorResponse (.obj { message := "Maximum retry attempts exceeded" })
        { attempts := some attempt })), calls)
    else
      sendEmailF env fuel calls
end

/-- A fetch-level network failure; `classifyError` maps it to
`api.network_error` via the "fetch" keyword. -/
def netErr : JsError := { message := "Failed to fetch" }

/-- Environment in which the token is available but every POST to the mail
endpoint fails with a network error. -/
def alwaysNetworkFailEnv : SendEnv :=
  { tokenResult := .ok "token-1"
    apiResult := fun _ => .error netErr
    handleAuthErrorResult := .ok "token-1" }

/-- Whitespace class of the JS regex `\s` (the common code points; exotic
Unicode space separators are never produced by the claims' inputs). -/
def isJsSpace (c : Char) : Bool :=
  c == ' ' || c == '\t' || c == '\n' || c == '\r' || c == '\x0b' || c == '\x0c' ||
  c == ' '

/-- Test of the regex `[^\s@]+@[^\s@]+\.[^\s@]+` anchored at both ends:
no whitespace anywhere, exactly one '@' with a nonempty local part, and a
'.' strictly inside the nonempty domain part (the character classes allow
dots, so any interior dot of the domain witnesses a match). -/
def matchesEmailPattern (s : String) : Bool :=
  let cs := s.data
  if cs.any isJsSpace then
    false
  else
    let loc := cs.takeWhile (fun c => c != '@')
    match cs.dropWhile (fun c => c != '@') with
    | [] => false
    | _ :: dom =>
      !loc.isEmpty && !(dom.contains '@') && ((dom.drop 1).dropLast.contains '.')

/-- JS `String.prototype.trim`: strip leading and trailing whitespace. -/
def jsTrim (s : String) : String :=
  String.mk (((s.data.dropWhile isJsSpace).reverse.dropWhile isJsSpace).reverse)

/-- Validator.isValidEmail (src/unnamed/part_005:10-17): falsy input fails,
otherwise the pattern is tested against the trimmed string. -/
def isValidEmail (email : String) : Bool :=
  if email = "" then false else matchesEmailPattern (jsTrim email)

/-- Email configuration object stored by the settings UI; absent JS fields
are `none` (attachment fields) or `""` (subject / body). -/
structure EmailConfig where
  subject : String := ""
  body : String := ""
  attachmentData : Option String := none
  attachmentName : Option String := none
  attachmentType : Option String := none

deriving DecidableEq, Repr

/-- Validator.validateEmailConfig (src/unnamed/part_005:24-49);
`!x || !x.trim()` on a string is `x.trim = ""`, and `x && p x` guards the
length checks behind nonemptiness. -/
def validateEmailConfig (config : Option EmailConfig) : List String :=
  match config with
  | none => ["Configuration is required"]
  | some c =>
    (if jsTrim c.subject = "" then ["Email subject is required"] else []) ++
    (if jsTrim c.body = "" then ["Email body is required"] else []) ++
    (if c.subject ≠ "" ∧ c.subject.length > 200 then
      ["Email subject is too long (max 200 characters)"] else []) ++
    (if c.body ≠ "" ∧ c.body.length > 10000 then
      ["Email body is too long (max 10,000 characters)"] else [])

/-- JS truthiness of an optional string (`undefined` and `''` are falsy). -/
def jsTruthyStr : Option String → Bool
  | some s => s != ""
  | none => false

/-- JS `a || b` on an optional string with default. -/
def jsStrOr (a : Option String) (b : String) : String :=
  match a with
  | some s => if s = "" then b else s
  | none => b

/-- EmailService._prepareAttachments (email.service.js:98-110). -/
def prepareAttachments (config : EmailConfig) : List Attachment :=
  if jsTruthyStr config.attachmentData && jsTruthyStr config.attachmentName then
    [{ name := config.attachmentName.getD ""
       data := config.attachmentData.getD ""
       type := some (jsStrOr config.attachmentType "application/octet-stream") }]
  else
    []

/-- EmailService._prepareEmailData (email.service.js:85-91). -/
def prepareEmailData (recipient : String) (config : EmailConfig) : EmailData :=
  { «to» := recipient, subject := config.subject, body := config.body }

/-- Environment for the orchestrator. `configResult` is
`StorageService.getEmailConfig()` (which can throw, return `null`, or
return a configuration); `sendEnv` drives the transport. The
`authService.initialize()` call made on first use only touches auth state
(a storage read and an introspection) and performs no POST to the mail
endpoint, so it contributes nothing to the modelled observables. -/
structure OrchEnv where
  configResult : Except JsError (Option EmailConfig)
  sendEnv : SendEnv

/-- Result of one orchestration call: the success object
`{success, message, messageId, recipient}` or the catch-block error
response. -/
inductive OrchOutcome where
  | ok (message : String) (messageId : Option String) (recipient : String)
  | fail (resp : ErrorResponse)

deriving DecidableEq, Repr

/-- The catch block of sendEmailWithAttachment:
`ErrorHandler.createErrorResponse(error, { recipient })`. -/
def orchCatch (error : JsError) (recipient : String) : OrchOutcome :=
  .fail (createErrorResponse (.obj error) { recipient := some recipient })

/-- EmailService.sendEmailWithAttachment (email.service.js:31-77),
fuel-indexed through the transport. Returns the outcome (`none` when the
transport never settles within the fuel) and the number of POSTs made to
the mail endpoint. Every thrown error is routed through `orchCatch`. -/
def sendEmailWithAttachment (env : OrchEnv) (fuel : Nat) (recipient : String) :
    Option OrchOutcome × Nat :=
  if !(isValidEmail recipient) then
    (some (orchCatch { message := "Invalid recipient email address" } recipient), 0)
  else
    match env.configResult with
    | .error e => (some (orchCatch e recipient), 0)
    | .ok none =>
      (some (orchCatch
        { message := "No email configuration found. Please configure your email template first." }
        recipient), 0)
    | .ok (some config) =>
      let configErrors := validateEmailConfig (some config)
      if !configErrors.isEmpty then
        (some (orchCatch
          { message := "Invalid email configuration: " ++ String.intercalate ", " configErrors }
          recipient), 0)
      else
        let _emailData := prepareEmailData recipient config
        let _attachments := prepareAttachments config
        match sendEmailF env.sendEnv fuel 0 with
        | (none, calls) => (none, calls)
        | (some (.ok mid _tid), calls) =>
          (some (.ok "Email sent successfully!" mid recipient), calls)
        | (some (.err resp), calls) =>
          (some (orchCatch
            { message := if resp.message = "" then "Failed to send email" else resp.message }
            recipient), calls)

/-- Environment with a valid configuration but a transport whose every
POST fails with a network error. -/
def divergeOrchEnv : OrchEnv :=
  { configResult := .ok (some { subject := "Hi", body := "Hello" })
    sendEnv := alwaysNetworkFailEnv }

/-- Environment for AuthService: `clientId` is `Environment.getClientId()`
(`none` for missing/empty); `identityToken i` is the outcome of
`chrome.identity.getAuthToken({interactive: i, ...})` (`.error` when
`chrome.runtime.lastError` is set, `.ok none` when the callback delivers a
falsy token); `introspect t` is whether the tokeninfo fetch of
`_validateToken` comes back `response.ok` (a fetch failure is `false`,
as the source catch returns false). -/
structure AuthEnv where
  clientId : Option String
  identityToken : Bool → Except JsError (Option String)
  introspect : String → Bool

/-- Mutable AuthService state: the in-memory `this.currentToken` and the
persisted copy in the key-value store. -/
structure AuthState where
  currentToken : Option String := none
  stored : Option String := none

deriving DecidableEq, Repr

/-- Observable interactions with the identity provider and key-value store. -/
inductive AuthEvent where
  | introspectCall (token : String)
  | storageRead
  | acquire (interactive : Bool)
  | storageWrite (token : String)
  | notify (authenticated : Bool)

deriving DecidableEq, Repr

/-- The catch block of AuthService.authenticate (src/unnamed/part_002:33-42):
verification-required errors get a dedicated message, everything else is
wrapped as 'Authentication failed: ...'. -/
def authWrapError (e : JsError) : JsError :=
  if classifyError (some (.obj e)) = "auth.verification_required" then
    { message := "App verification required. Please add yourself as a test user in Google Cloud Console." }
  else
    { message := "Authentication failed: " ++ getUserMessage (.obj e) }

/-- AuthService.authenticate (src/unnamed/part_002:15-43): check the client
id, acquire a token from the identity provider, and on success store it,
persist it and notify listeners. -/
def authenticate (env : AuthEnv) (interactive : Bool) (st : AuthState) :
    Except JsError String × AuthState × List AuthEvent :=
  match env.clientId with
  | none => (.error (authWrapError { message := "Google Client ID not configured" }), st, [])
  | some _ =>
    match env.identityToken interactive with
    | .error e => (.error (authWrapError e), st, [.acquire interactive])
    | .ok none =>
      (.error (authWrapError { message := "Authentication failed" }), st, [.acquire interactive])
    | .ok (some token) =>
      (.ok token, { currentToken := some token, stored := some token },
       [.acquire interactive, .storageWrite token, .notify true])

/-- The catch block of AuthService.getValidToken (src/unnamed/part_002:117-120). -/
def wrapGetValidTokenError (e : JsError) : JsError :=
  { message := "Failed to get valid token: " ++ getUserMessage (.obj e) }

/-- Continuation of getValidToken after the in-memory check misses: read the
persisted token, verify it, else authenticate interactively (the `evs`
accumulator carries the events already emitted). -/
def getValidTokenStored (env : AuthEnv) (st : AuthState) (evs : List AuthEvent) :
    Except JsError String × AuthState × List AuthEvent :=
  let authPath := fun (evs2 : List AuthEvent) =>
    match authenticate env true st with
    | (.ok token, st2, aevs) => (.ok token, st2, evs2 ++ aevs)
    | (.error e, st2, aevs) => (.error (wrapGetValidTokenError e), st2, evs2 ++ aevs)
  match st.stored with
  | some storedToken =>
    if env.introspect storedToken then
      (.ok storedToken, { st with currentToken := some storedToken },
       evs ++ [.storageRead, .introspectCall storedToken])
    else
      authPath (evs ++ [.storageRead, .introspectCall storedToken])
  | none => authPath (evs ++ [.storageRead])

/-- AuthService.getValidToken (src/unnamed/part_002:95-121): return the
in-memory token if it introspects live; otherwise verify the persisted
token; otherwise authenticate — interactively, directly. -/
def getValidToken (env : AuthEnv) (st : AuthState) :
    Except JsError String × AuthState × List AuthEvent :=
  match st.currentToken with
  | some t =>
    if env.introspect t then
      (.ok t, st, [.introspectCall t])
    else
      getValidTokenStored env st [.introspectCall t]
  | none => getValidTokenStored env st []

/-- Concrete environment for the C5 counterexample: a configured client id,
an identity provider that answers every acquisition with a token, and an
introspection that accepts every token. -/
def cexAuthEnv : AuthEnv :=
  { clientId := some "client-1"
    identityToken := fun _ => .ok (some "tok-i")
    introspect := fun _ => true }

/-- State shared by concurrent getValidToken callers: the service's
`this.currentToken`, the persisted token, and a count of identity-provider
acquisition invocations. -/
structure SharedAuth where
  current : Option String := none
  stored : Option String := none
  acquires : Nat := 0

deriving DecidableEq, Repr

deriving instance DecidableEq for Except

/-- Program counter of one getValidToken task, one label per suspension
point of the source: the `await`s on the introspection fetch, the storage
read, the identity acquisition and the storage write. -/
inductive TaskPC where
  | ready
  | introspectingMem (t : String)
  | readingStorage
  | introspectingStored (t : String)
  | acquiring
  | saving (t : String)
  | finished (r : Except JsError String)

deriving DecidableEq, Repr

/-- Entry into authenticate(true) from getValidToken: the synchronous client
id check, then the identity-provider invocation (counted at the moment the
call is issued, before the task suspends on it). -/
def startAuthPath (env : AuthEnv) (sh : SharedAuth) : TaskPC × SharedAuth :=
  match env.clientId with
  | none =>
    (.finished (.error (wrapGetValidTokenError
      (authWrapError { message := "Google Client ID not configured" }))), sh)
  | some _ => (.acquiring, { sh with acquires := sh.acquires + 1 })

/-- One cooperative step of a getValidToken task: run from its last
suspension point to the next one (or to completion), reading and writing
the shared state exactly where the source lines do. -/
def stepTask (env : AuthEnv) (pc : TaskPC) (sh : SharedAuth) : TaskPC × SharedAuth :=
  match pc with
  | .ready =>
    match sh.current with
    | some t => (.introspectingMem t, sh)
    | none => (.readingStorage, sh)
  | .introspectingMem t =>
    if env.introspect t then (.finished (.ok t), sh) else (.readingStorage, sh)
  | .readingStorage =>
    match sh.stored with
    | some t => (.introspectingStored t, sh)
    | none => startAuthPath env sh
  | .introspectingStored t =>
    if env.introspect t then (.finished (.ok t), { sh with current := some t })
    else startAuthPath env sh
  | .acquiring =>
    match env.identityToken true with
    | .error e => (.finished (.error (wrapGetValidTokenError (authWrapError e))), sh)
    | .ok none =>
      (.finished (.error (wrapGetValidTokenError
        (authWrapError { message := "Authentication failed" }))), sh)
    | .ok (some t) => (.saving t, { sh with current := some t })
  | .saving t => (.finished (.ok t), { sh with stored := some t })
  | .finished r => (.finished r, sh)

/-- Two getValidToken tasks over one shared state. -/
structure ConcAuth where
  sh : SharedAuth := {}
  pcA : TaskPC := .ready
  pcB : TaskPC := .ready

deriving DecidableEq, Repr

/-- Run one scheduler step: advance task A (`true`) or task B (`false`). -/
def sysStep (env : AuthEnv) (s : ConcAuth) (stepA : Bool) : ConcAuth :=
  if stepA then
    let r := stepTask env s.pcA s.sh
    { s with pcA := r.1, sh := r.2 }
  else
    let r := stepTask env s.pcB s.sh
    { s with pcB := r.1, sh := r.2 }

/-- Run a schedule (list of task choices) from a system state. -/
def runSchedule (env : AuthEnv) : List Bool → ConcAuth → ConcAuth
  | [], s => s
  | w :: ws, s => runSchedule env ws (sysStep env s w)

/-- Interleaving in which the second caller starts before the first's
acquisition completes. -/
def overlappedSchedule : List Bool := [true, false, true, false, true, false, true, false]

/-- Interleaving in which the second caller starts only after the first has
finished. -/
def sequentialSchedule : List Bool := [true, true, true, true, false, false]

/-- Environment for the C5 witness: the persisted token introspects live,
the in-memory one does not. -/
def pathWitnessEnv : AuthEnv :=
  { clientId := some "client-1"
    identityToken := fun _ => .ok (some "tok-i")
    introspect := fun tok => tok == "tok-s" }

/-- Numeric weight of a Bool flag. -/
def boolNat (b : Bool) : Nat := if b then 1 else 0

/-- Instrumented two-task state: the machine state plus one bookkeeping
flag per task recording whether that task has started its own acquisition. -/
structure ConcAuthI where
  base : ConcAuth := {}
  acqA : Bool := false
  acqB : Bool := false

deriving DecidableEq, Repr

/-- sysStep plus bookkeeping: a task's flag is set exactly when its step
increments the shared acquisition counter. -/
def sysStepI (env : AuthEnv) (s : ConcAuthI) (stepA : Bool) : ConcAuthI :=
  if stepA then
    let r := stepTask env s.base.pcA s.base.sh
    { base := { s.base with pcA := r.1, sh := r.2 }
      acqA := s.acqA || (s.base.sh.acquires != r.2.acquires)
      acqB := s.acqB }
  else
    let r := stepTask env s.base.pcB s.base.sh
    { base := { s.base with pcB := r.1, sh := r.2 }
      acqA := s.acqA
      acqB := s.acqB || (s.base.sh.acquires != r.2.acquires) }

/-- Instrumented schedule run. -/
def runScheduleI (env : AuthEnv) : List Bool → ConcAuthI → ConcAuthI
  | [], s => s
  | w :: ws, s => runScheduleI env ws (sysStepI env s w)

/-- Per-task invariant of the concurrency analysis, for an environment
whose provider hands out token `t` and validates it: a task before its
acquisition has its flag down; a task introspecting a token read from the
shared state owes that token to the other task's acquisition; a task at or
past its own acquisition has its flag up; a completed task holds `t`. -/
def pcInv (t : String) (pc : TaskPC) (acq oacq : Bool) : Prop :=
  match pc with
  | .ready => acq = false
  | .introspectingMem u => u = t ∧ acq = false ∧ oacq = true
  | .readingStorage => acq = false
  | .introspectingStored u => u = t ∧ acq = false ∧ oacq = true
  | .acquiring => acq = true
  | .saving u => u = t ∧ acq = true
  | .finished r => r = .ok t ∧ (acq = true ∨ oacq = true)

/-- Shared-state invariant: only `t` ever circulates, a present token
implies a past acquisition, and the acquisition counter equals the number
of raised flags. -/
def shOk (t : String) (sh : SharedAuth) (acqA acqB : Bool) : Prop :=
  (sh.current = none ∨ sh.current = some t) ∧
  (sh.stored = none ∨ sh.stored = some t) ∧
  (sh.current ≠ none → acqA = true ∨ acqB = true) ∧
  (sh.stored ≠ none → acqA = true ∨ acqB = true) ∧
  sh.acquires = boolNat acqA + boolNat acqB

/-- Full invariant of the instrumented two-task system. -/
def ConcInv (t : String) (s : ConcAuthI) : Prop :=
  shOk t s.base.sh s.acqA s.acqB ∧
  pcInv t s.base.pcA s.acqA s.acqB ∧
  pcInv t s.base.pcB s.acqB s.acqA

/-- C3: every raw error whose message contains both "token" and "expired"
classifies as `auth.token_expired`, and the recovery strategy recorded for
`auth.token_expired` has `autoRetry = true` (the retryable flag) and
`maxRetries = 1`. -/
theorem classify_token_expired_policy (e : RawError)
    (h1 : includes (messageOf e) "token" = true)
    (h2 : includes (messageOf e) "expired" = true) :
    classifyError (some e) = "auth.token_expired" ∧
    ∃ s, RECOVERY_STRATEGIES "auth.token_expired" = some s ∧
      s.autoRetry = true ∧ s.maxRetries = some 1 := by
  refine ⟨?_, ?_⟩
  · simp [classifyError, h1, h2]
  · exact ⟨_, rfl, rfl, rfl⟩

/-- C3 witness: the concrete error message "token has expired" satisfies the
hypotheses and the conclusion. -/
theorem classify_token_expired_policy_witness :
    classifyError (some (.str "token has expired")) = "auth.token_expired" ∧
    ∃ s, RECOVERY_STRATEGIES "auth.token_expired" = some s ∧
      s.autoRetry = true ∧ s.maxRetries = some 1 :=
  classify_token_expired_policy (.str "token has expired") (by decide) (by decide)

/-- C4 counterexample: the message "unauthorized permission network" contains
both "permission" and "network", yet `classifyError` returns
`auth.invalid_credentials` (the higher-priority "unauthorized" guard fires
first), not `auth.permission_denied` as the claim states for every such
message. -/
theorem classify_permission_network_cex :
    includes "unauthorized permission network" "permission" = true ∧
    includes "unauthorized permission network" "network" = true ∧
    classifyError (some (.str "unauthorized permission network")) =
      "auth.invalid_credentials" := by
  decide

/-- C4 (amended): classification follows the source's fixed priority order
with first match winning; a raw error whose message contains "permission"
(in particular one also containing "network") classifies as
`auth.permission_denied`, not `api.network_error`, provided no
higher-priority guard matches (not both "token" and "expired", and neither
"invalid_grant" nor "unauthorized"). -/
theorem classify_permission_beats_network (e : RawError)
    (hp : includes (messageOf e) "permission" = true)
    (_hn : includes (messageOf e) "network" = true)
    (h1 : (includes (messageOf e) "token" && includes (messageOf e) "expired") = false)
    (h2 : includes (messageOf e) "invalid_grant" = false)
    (h3 : includes (messageOf e) "unauthorized" = false) :
    classifyError (some e) = "auth.permission_denied" ∧
    classifyError (some e) ≠ "api.network_error" := by
  have : classifyError (some e) = "auth.permission_denied" := by
    simp [classifyError, h1, h2, h3, hp]
  exact ⟨this, by simp [this]⟩

/-- C4 witness: the concrete message "permission network" discharges every
hypothesis of the amended theorem. -/
theorem classify_permission_beats_network_witness :
    classifyError (some (.str "permission network")) = "auth.permission_denied" ∧
    classifyError (some (.str "permission network")) ≠ "api.network_error" :=
  classify_permission_beats_network (.str "permission network")
    (by decide) (by decide) (by decide) (by decide) (by decide)

/-- C10: `classifyError` is total: a falsy (null/undefined/empty) error
classifies as "unknown"; an error matching none of the listed guards
classifies as "unknown"; and `isRetryableError "unknown"` is `false`
(there is no recovery strategy entry for "unknown"). -/
theorem classifyError_total (e : RawError) (h : noGuardMatches e = true) :
    classifyError none = "unknown" ∧
    classifyError (some e) = "unknown" ∧
    isRetryableError "unknown" = false := by
  refine ⟨rfl, ?_, rfl⟩
  simp only [noGuardMatches, Bool.and_eq_true, Bool.not_eq_true'] at h
  obtain ⟨⟨⟨⟨⟨⟨⟨⟨⟨⟨g1, g2⟩, g3⟩, g4⟩, g5⟩, g6⟩, g7⟩, g8⟩, g9⟩, g10⟩, g11⟩ := h
  simp [classifyError, g1, g2, g3, g4, g5, g6, g7, g8, g9, g10, g11]

/-- C10 witness: the concrete message "xyzzy" matches no guard, and the
three conclusions hold for it. -/
theorem classifyError_total_witness :
    classifyError none = "unknown" ∧
    classifyError (some (.str "xyzzy")) = "unknown" ∧
    isRetryableError "unknown" = false :=
  classifyError_total (.str "xyzzy") (by decide)

/-- C8: with no attachments the builder produces exactly the headers `To`,
`Subject`, `MIME-Version: 1.0` and `Content-Type: text/plain; charset=UTF-8`,
followed by a blank line and then the body, every separator being CRLF. -/
theorem buildEmailMessage_no_attachments (emailData : EmailData) (boundary : String) :
    buildEmailMessage emailData [] boundary =
      "To: " ++ emailData.«to» ++
      "\r\nSubject: " ++ emailData.subject ++
      "\r\nMIME-Version: 1.0" ++
      "\r\nContent-Type: text/plain; charset=UTF-8" ++
      "\r\n\r\n" ++ emailData.body := by
  apply String.ext
  simp [buildEmailMessage, buildEmailMessageLines, joinCRLF, String.data_append]

/-- Splitting a CR-free character list yields the single original line. -/
theorem splitCRLFChars_noCR (l : List Char) (h : '\r' ∉ l) : splitCRLFChars l = [l] := by
  induction l with
  | nil => rfl
  | cons c t ih =>
    cases t with
    | nil => rfl
    | cons d rest =>
      have hc : c ≠ '\r' := fun hc => h (hc ▸ List.mem_cons_self c _)
      have ht : '\r' ∉ d :: rest := fun hm => h (List.mem_cons_of_mem _ hm)
      rw [splitCRLFChars, if_neg (fun hh => hc hh.1), ih ht]

/-- Splitting `line ++ CRLF ++ suffix` peels off the CR-free `line`. -/
theorem splitCRLFChars_append (line suffix : List Char) (h : '\r' ∉ line) :
    splitCRLFChars (line ++ '\r' :: '\n' :: suffix) = line :: splitCRLFChars suffix := by
  induction line with
  | nil =>
    simp only [List.nil_append]
    rw [splitCRLFChars, if_pos ⟨rfl, rfl⟩]
  | cons c t ih =>
    have hc : c ≠ '\r' := fun hc => h (hc ▸ List.mem_cons_self c _)
    have ht : '\r' ∉ t := fun hm => h (List.mem_cons_of_mem _ hm)
    cases t with
    | nil =>
      simp only [List.nil_append, List.cons_append]
      have hbase : splitCRLFChars ('\r' :: '\n' :: suffix) = [] :: splitCRLFChars suffix := by
        rw [splitCRLFChars, if_pos ⟨rfl, rfl⟩]
      rw [splitCRLFChars, if_neg (fun hh => hc hh.1), hbase]
    | cons d rest =>
      simp only [List.cons_append] at ih ⊢
      rw [splitCRLFChars, if_neg (fun hh => hc hh.1), ih ht]

/-- Splitting is a left inverse of joining on nonempty lists of CR-free lines. -/
theorem splitCRLF_joinCRLF (lines : List String) (hne : lines ≠ [])
    (h : ∀ l ∈ lines, '\r' ∉ l.data) : splitCRLF (joinCRLF lines) = lines := by
  induction lines with
  | nil => exact absurd rfl hne
  | cons s t ih =>
    cases t with
    | nil =>
      have hs : '\r' ∉ s.data := h s (List.mem_cons_self s _)
      simp [splitCRLF, joinCRLF, splitCRLFChars_noCR s.data hs]
    | cons u rest =>
      have hs : '\r' ∉ s.data := h s (List.mem_cons_self s _)
      have htail : ∀ l ∈ u :: rest, '\r' ∉ l.data :=
        fun l hl => h l (List.mem_cons_of_mem _ hl)
      have hdata : (joinCRLF (s :: u :: rest)).data =
          s.data ++ '\r' :: '\n' :: (joinCRLF (u :: rest)).data := by
        show ((s ++ "\r\n") ++ joinCRLF (u :: rest)).data = _
        simp [String.data_append]
      have ihr := ih (by simp) htail
      simp only [splitCRLF] at ihr ⊢
      rw [hdata, splitCRLFChars_append _ _ hs, List.map_cons, ihr]

/-- A string with a literal prefix differs from any string the prefix does
not start. -/
theorem str_append_ne (p s t : String) (h : ¬ p.data <+: t.data) : p ++ s ≠ t := by
  intro he
  exact h ⟨s.data, by rw [← String.data_append, he]⟩

/-- String concatenation is associative. -/
theorem str_append_assoc (a b c : String) : a ++ b ++ c = a ++ (b ++ c) := by
  apply String.ext
  simp [String.data_append]

/-- Appending CR-free strings stays CR-free. -/
theorem crFree_append (a b : String) (ha : '\r' ∉ a.data) (hb : '\r' ∉ b.data) :
    '\r' ∉ (a ++ b).data := by
  rw [String.data_append]
  simp only [List.mem_append]
  rintro (hc | hc)
  · exact ha hc
  · exact hb hc

/-- Dropping while scanning for a header line steps past any different line. -/
theorem dropWhile_ne_step (H x : String) (xs : List String) (hx : x ≠ H) :
    (x :: xs).dropWhile (fun l => l != H) = xs.dropWhile (fun l => l != H) := by
  rw [List.dropWhile_cons, if_pos (by simpa [bne_iff_ne] using hx)]

/-- Dropping while scanning for a header line stops at that line. -/
theorem dropWhile_ne_stop (H : String) (xs : List String) :
    (H :: xs).dropWhile (fun l => l != H) = H :: xs := by
  rw [List.dropWhile_cons, if_neg (by simp)]

/-- C9: embedding an attachment with CR-free fields into a message and
re-extracting the lines between the `Content-Transfer-Encoding: base64`
header block and the next boundary marker returns the original base64
payload unchanged (the payload must not itself be the header line or a
boundary marker, which holds for genuine base64 data). -/
theorem attachment_roundtrip (emailData : EmailData) (a : Attachment) (boundary : String)
    (hto : '\r' ∉ emailData.«to».data)
    (hsub : '\r' ∉ emailData.subject.data)
    (hbody : '\r' ∉ emailData.body.data)
    (hname : '\r' ∉ a.name.data)
    (hdata : '\r' ∉ a.data.data)
    (htype : '\r' ∉ (a.type.getD "application/octet-stream").data)
    (hbnd : '\r' ∉ boundary.data)
    (hbody2 : emailData.body ≠ "Content-Transfer-Encoding: base64")
    (hd1 : a.data ≠ "--" ++ boundary)
    (hd2 : a.data ≠ "--" ++ boundary ++ "--") :
    extractAttachmentData (buildEmailMessage emailData [a] boundary) boundary = some a.data := by
  have hexp : buildEmailMessageLines emailData [a] boundary =
      ["To: " ++ emailData.«to»,
       "Subject: " ++ emailData.subject,
       "MIME-Version: 1.0",
       "Content-Type: multipart/mixed; boundary=\"" ++ boundary ++ "\"",
       "",
       "--" ++ boundary,
       "Content-Type: text/plain; charset=UTF-8",
       "",
       emailData.body,
       "",
       "--" ++ boundary,
       "Content-Type: " ++ a.type.getD "application/octet-stream",
       "Content-Disposition: attachment; filename=\"" ++ a.name ++ "\"",
       "Content-Transfer-Encoding: base64",
       "",
       a.data,
       "",
       "--" ++ boundary ++ "--"] := rfl
  have hmem : ∀ l ∈ buildEmailMessageLines emailData [a] boundary, '\r' ∉ l.data := by
    rw [hexp]
    intro l hl
    simp only [List.mem_cons, List.not_mem_nil, or_false] at hl
    rcases hl with h|h|h|h|h|h|h|h|h|h|h|h|h|h|h|h|h|h <;> subst h <;>
      first
        | decide
        | exact crFree_append _ _ (by decide) hto
        | exact crFree_append _ _ (by decide) hsub
        | exact hbody
        | exact hdata
        | exact crFree_append _ _ (by decide) hbnd
        | exact crFree_append _ _ (by decide) htype
        | exact crFree_append _ _ (crFree_append _ _ (by decide) hbnd) (by decide)
        | exact crFree_append _ _ (crFree_append _ _ (by decide) hname) (by decide)
  have h1 : splitCRLF (buildEmailMessage emailData [a] boundary) =
      buildEmailMessageLines emailData [a] boundary :=
    splitCRLF_joinCRLF _ (by rw [hexp]; simp) hmem
  have h3 : (splitCRLF (buildEmailMessage emailData [a] boundary)).dropWhile
      (fun l => l != "Content-Transfer-Encoding: base64") =
      "Content-Transfer-Encoding: base64" :: ["", a.data, "", "--" ++ boundary ++ "--"] := by
    rw [h1, hexp]
    rw [dropWhile_ne_step _ _ _ (str_append_ne "To: " _ _ (by decide))]
    rw [dropWhile_ne_step _ _ _ (str_append_ne "Subject: " _ _ (by decide))]
    rw [dropWhile_ne_step _ _ _ (by decide)]
    rw [dropWhile_ne_step _ _ _
      (by rw [str_append_assoc]; exact str_append_ne _ _ _ (by decide))]
    rw [dropWhile_ne_step _ _ _ (by decide)]
    rw [dropWhile_ne_step _ _ _ (str_append_ne "--" _ _ (by decide))]
    rw [dropWhile_ne_step _ _ _ (by decide)]
    rw [dropWhile_ne_step _ _ _ (by decide)]
    rw [dropWhile_ne_step _ _ _ hbody2]
    rw [dropWhile_ne_step _ _ _ (by decide)]
    rw [dropWhile_ne_step _ _ _ (str_append_ne "--" _ _ (by decide))]
    rw [dropWhile_ne_step _ _ _ (str_append_ne "Content-Type: " _ _ (by decide))]
    rw [dropWhile_ne_step _ _ _
      (by rw [str_append_assoc]; exact str_append_ne _ _ _ (by decide))]
    exact dropWhile_ne_stop _ _
  have hm1 : isBoundaryMarker boundary a.data = false := by
    simp [isBoundaryMarker, hd1, hd2]
  have hm2 : isBoundaryMarker boundary "" = false := by
    have e1 : "--" ++ boundary ≠ "" := str_append_ne _ _ _ (by decide)
    have e2 : "--" ++ boundary ++ "--" ≠ "" := by
      rw [str_append_assoc]; exact str_append_ne _ _ _ (by decide)
    simp [isBoundaryMarker, Ne.symm e1, Ne.symm e2]
  have hm3 : isBoundaryMarker boundary ("--" ++ boundary ++ "--") = true := by
    simp [isBoundaryMarker]
  simp only [extractAttachmentData, h3]
  simp only [List.head?, List.tail, List.takeWhile, hm1, hm2, hm3]
  by_cases hA : a.data = ""
  · simp [dropTrailingBlanks, hA, joinCRLF]
  · simp [dropTrailingBlanks, hA, joinCRLF]

/-- C9 witness: a concrete message, attachment and boundary discharge every
hypothesis of the round-trip theorem. -/
theorem attachment_roundtrip_witness :
    extractAttachmentData
      (buildEmailMessage ⟨"a@b.c", "S", "B"⟩ [⟨"f.txt", "QUJD", some "text/plain"⟩] "boundary_x")
      "boundary_x" = some "QUJD" :=
  attachment_roundtrip ⟨"a@b.c", "S", "B"⟩ ⟨"f.txt", "QUJD", some "text/plain"⟩ "boundary_x"
    (by decide) (by decide) (by decide) (by decide) (by decide) (by decide) (by decide)
    (by decide) (by decide) (by decide)

/-- One full failing attempt consumes three fuel units, makes one POST, and
re-enters `sendEmail` with the backoff counter reset to 1. -/
theorem netfail_cycle (fuel calls : Nat) :
    sendEmailF alwaysNetworkFailEnv (fuel + 3) calls =
    sendEmailF alwaysNetworkFailEnv fuel (calls + 1) := by
  have hcl : classifyError (some (.obj netErr)) = "api.network_error" := by decide
  show sendEmailF alwaysNetworkFailEnv (fuel + 2 + 1) calls = _
  rw [sendEmailF]
  show handleApiErrorF alwaysNetworkFailEnv (fuel + 1 + 1) (calls + 1) netErr = _
  rw [handleApiErrorF]
  simp only [hcl]
  norm_num
  show retryWithBackoffF alwaysNetworkFailEnv (fuel + 1) (calls + 1) 1 = _
  rw [retryWithBackoffF]
  norm_num [gmailMaxRetries]

/-- Auxiliary: at fuel `3 * k` the always-network-failing send makes exactly
`k` POSTs and still has no result. -/
theorem netfail_run (k : Nat) : ∀ calls,
    sendEmailF alwaysNetworkFailEnv (3 * k) calls = (none, calls + k) := by
  induction k with
  | zero => intro calls; simp [sendEmailF]
  | succ n ih =>
    intro calls
    have h3 : 3 * (n + 1) = 3 * n + 3 := by ring
    rw [h3, netfail_cycle, ih (calls + 1)]
    congr 1
    omega

/-- C1: when every POST to the mail endpoint fails with `api.network_error`,
the send pipeline does not perform `1 + maxRetries` attempts and then stop:
each failing attempt re-enters `sendEmail`, whose error handler restarts
`_retryWithBackoff` at attempt 1 (failures are returned as values, never
thrown into the backoff catch), so no "Maximum retry attempts exceeded"
response is ever produced and the POST count grows without bound — at fuel
`3 * k` the run has already made `k` POSTs (for example 5 > 1 + maxRetries
= 4 at `k = 5`) and still has no result. -/
theorem sendEmail_network_retry_unbounded :
    (∀ k calls, sendEmailF alwaysNetworkFailEnv (3 * k) calls = (none, calls + k)) ∧
    (sendEmailF alwaysNetworkFailEnv (3 * 5) 0).2 = 5 ∧
    1 + gmailMaxRetries < (sendEmailF alwaysNetworkFailEnv (3 * 5) 0).2 := by
  refine ⟨fun k calls => netfail_run k calls, ?_, ?_⟩
  · rw [netfail_run 5 0]
  · rw [netfail_run 5 0]; decide

set_option maxHeartbeats 2000000 in
/-- classifyError never returns the empty string. -/
theorem classifyError_ne_empty (o : Option RawError) : classifyError o ≠ "" := by
  rcases o with _ | e
  · decide
  · simp only [classifyError]
    repeat' split
    all_goals decide

/-- Every recorded recovery strategy carries a nonempty user message. -/
theorem strategies_userMessage_ne (t : String) (s : RecoveryStrategy)
    (h : RECOVERY_STRATEGIES t = some s) : s.userMessage ≠ "" := by
  unfold RECOVERY_STRATEGIES at h
  split_ifs at h <;> simp only [Option.some.injEq] at h <;> subst h <;> decide

/-- getUserMessage never returns the empty string. -/
theorem getUserMessage_ne_empty (e : RawError) : getUserMessage e ≠ "" := by
  unfold getUserMessage
  cases h : RECOVERY_STRATEGIES (classifyError (some e)) with
  | none =>
    dsimp only
    repeat' split
    all_goals decide
  | some s => exact strategies_userMessage_ne _ _ h

set_option maxHeartbeats 1000000 in
/-- getActionableMessage never returns the empty string. -/
theorem getActionableMessage_ne_empty (e : RawError) : getActionableMessage e ≠ "" := by
  unfold getActionableMessage
  dsimp only
  repeat' split
  all_goals decide

/-- Every error response built by createErrorResponse has a populated kind,
user message and actionable message. -/
theorem createErrorResponse_populated (e : RawError) (ctx : ErrCtx) :
    (createErrorResponse e ctx).errorType ≠ "" ∧
    (createErrorResponse e ctx).message ≠ "" ∧
    (createErrorResponse e ctx).actionableMessage ≠ "" := by
  refine ⟨?_, ?_, ?_⟩
  · show classifyError (some e) ≠ ""
    exact classifyError_ne_empty _
  · show getUserMessage e ≠ ""
    exact getUserMessage_ne_empty _
  · show getActionableMessage e ≠ ""
    exact getActionableMessage_ne_empty _

/-- C2 (code-bug evidence): a recipient rejected by `isValidEmail` is
refused before any POST — zero transport invocations — and the returned
failure's classified kind is "unknown", not "validation.invalid_email":
the thrown message 'Invalid recipient email address' fails the
classifier's case-sensitive `includes('invalid')` check. -/
theorem invalid_recipient_no_network (env : OrchEnv) (fuel : Nat) (recipient : String)
    (h : isValidEmail recipient = false) :
    (sendEmailWithAttachment env fuel recipient).2 = 0 ∧
    ∃ resp, (sendEmailWithAttachment env fuel recipient).1 = some (.fail resp) ∧
      resp.errorType = "unknown" ∧ resp.errorType ≠ "validation.invalid_email" := by
  have hcl : classifyError (some (.obj { message := "Invalid recipient email address" })) =
      "unknown" := by decide
  refine ⟨?_, ?_⟩
  · simp [sendEmailWithAttachment, h]
  · refine ⟨createErrorResponse (.obj { message := "Invalid recipient email address" })
      { recipient := some recipient }, ?_, ?_, ?_⟩
    · simp [sendEmailWithAttachment, h, orchCatch]
    · simpa [createErrorResponse] using hcl
    · simp [createErrorResponse, hcl]

/-- C2 witness: the concrete recipient "bad-address" discharges the
hypothesis and the conclusions. -/
theorem invalid_recipient_no_network_witness :
    (sendEmailWithAttachment
      { configResult := .ok none, sendEnv := alwaysNetworkFailEnv } 0 "bad-address").2 = 0 ∧
    ∃ resp, (sendEmailWithAttachment
      { configResult := .ok none, sendEnv := alwaysNetworkFailEnv } 0 "bad-address").1 =
        some (.fail resp) ∧
      resp.errorType = "unknown" ∧ resp.errorType ≠ "validation.invalid_email" :=
  invalid_recipient_no_network
    { configResult := .ok none, sendEnv := alwaysNetworkFailEnv } 0 "bad-address" (by decide)

/-- C7: every failure surfaced by sendEmailWithAttachment is the normalized
catch-block shape — an error response with populated kind, user message and
actionable message (no exception escapes the boundary: the embedding's
result type has no thrown alternative). However the pipeline does not
always return: with a valid recipient and configuration but an
always-network-failing transport, no result is produced at any fuel
(the unbounded retry of `sendEmail_network_retry_unbounded`). -/
theorem sendEmailWithAttachment_normalized :
    (∀ env fuel recipient resp calls,
      sendEmailWithAttachment env fuel recipient = (some (.fail resp), calls) →
      resp.errorType ≠ "" ∧ resp.message ≠ "" ∧ resp.actionableMessage ≠ "") ∧
    (∀ k, (sendEmailWithAttachment divergeOrchEnv (3 * k) "user@example.com").1 = none) := by
  constructor
  · intro env fuel recipient resp calls h
    unfold sendEmailWithAttachment at h
    cases hv : isValidEmail recipient with
    | false =>
      simp only [hv, Bool.not_false, if_true, Prod.mk.injEq, Option.some.injEq] at h
      obtain ⟨h1, -⟩ := h
      simp only [orchCatch, OrchOutcome.fail.injEq] at h1
      subst h1
      exact createErrorResponse_populated _ _
    | true =>
      simp only [hv, Bool.not_true, Bool.false_eq_true, if_false] at h
      cases hc : env.configResult with
      | error e =>
        simp only [hc, Prod.mk.injEq, Option.some.injEq] at h
        obtain ⟨h1, -⟩ := h
        simp only [orchCatch, OrchOutcome.fail.injEq] at h1
        subst h1
        exact createErrorResponse_populated _ _
      | ok oc =>
        cases oc with
        | none =>
          simp only [hc, Prod.mk.injEq, Option.some.injEq] at h
          obtain ⟨h1, -⟩ := h
          simp only [orchCatch, OrchOutcome.fail.injEq] at h1
          subst h1
          exact createErrorResponse_populated _ _
        | some config =>
          simp only [hc] at h
          cases hce : (validateEmailConfig (some config)).isEmpty with
          | false =>
            simp only [hce, Bool.not_false, if_true, Prod.mk.injEq, Option.some.injEq] at h
            obtain ⟨h1, -⟩ := h
            simp only [orchCatch, OrchOutcome.fail.injEq] at h1
            subst h1
            exact createErrorResponse_populated _ _
          | true =>
            simp only [hce, Bool.not_true, Bool.false_eq_true, if_false] at h
            cases hs : sendEmailF env.sendEnv fuel 0 with
            | mk out calls2 =>
              cases out with
              | none => simp [hs] at h
              | some o =>
                cases o with
                | ok mid tid => simp [hs] at h
                | err r =>
                  simp only [hs, Prod.mk.injEq, Option.some.injEq] at h
                  obtain ⟨h1, -⟩ := h
                  simp only [orchCatch, OrchOutcome.fail.injEq] at h1
                  subst h1
                  exact createErrorResponse_populated _ _
  · intro k
    have hv : isValidEmail "user@example.com" = true := by decide
    have hc : validateEmailConfig (some { subject := "Hi", body := "Hello" }) = [] := by decide
    unfold sendEmailWithAttachment divergeOrchEnv
    rw [netfail_run k 0]
    simp [hv, hc]

/-- C7 witness: a concrete run producing a failure discharges the first
conjunct's hypothesis at an explicit input. -/
theorem sendEmailWithAttachment_normalized_witness :
    (createErrorResponse (.obj { message := "Invalid recipient email address" })
      { recipient := some "bad-address" }).errorType ≠ "" ∧
    (createErrorResponse (.obj { message := "Invalid recipient email address" })
      { recipient := some "bad-address" }).message ≠ "" ∧
    (createErrorResponse (.obj { message := "Invalid recipient email address" })
      { recipient := some "bad-address" }).actionableMessage ≠ "" :=
  sendEmailWithAttachment_normalized.1 divergeOrchEnv 0 "bad-address" _ 0 (by decide)

/-- C5 counterexample: starting with no in-memory and no persisted
credential, getValidToken acquires interactively at once — its event trace
contains `acquire true` and no `acquire false` — refuting the claimed path
"fresh non-interactive acquisition first, interactive only if that fails". -/
theorem getValidToken_skips_noninteractive_cex :
    (getValidToken cexAuthEnv {}).2.2 =
      [.storageRead, .acquire true, .storageWrite "tok-i", .notify true] ∧
    AuthEvent.acquire false ∉ (getValidToken cexAuthEnv {}).2.2 := by
  decide

/-- Acquisition events emitted by authenticate all carry its own
`interactive` flag. -/
theorem authenticate_acquire_events (env : AuthEnv) (interactive : Bool) (st : AuthState)
    (b : Bool) (hb : AuthEvent.acquire b ∈ (authenticate env interactive st).2.2) :
    b = interactive := by
  unfold authenticate at hb
  cases hcid : env.clientId with
  | none => simp [hcid] at hb
  | some c =>
    cases hit : env.identityToken interactive with
    | error e => simp [hcid, hit] at hb; exact hb
    | ok o =>
      cases o with
      | none => simp [hcid, hit] at hb; exact hb
      | some token => simp [hcid, hit] at hb; exact hb

/-- C6 counterexample: two getValidToken calls with no existing credential,
interleaved so that both pass the memory and storage checks before either
acquisition returns, invoke the identity provider twice — not once as the
claim states — and both complete. -/
theorem concurrent_getValidToken_two_acquisitions_cex :
    (runSchedule cexAuthEnv overlappedSchedule {}).sh.acquires = 2 ∧
    (runSchedule cexAuthEnv overlappedSchedule {}).pcA = .finished (.ok "tok-i") ∧
    (runSchedule cexAuthEnv overlappedSchedule {}).pcB = .finished (.ok "tok-i") := by
  decide

/-- Every acquisition event of the stored-token fallback is interactive,
given an accumulator free of acquisition events. -/
theorem getValidTokenStored_acquire_events (env : AuthEnv) (st : AuthState)
    (evs : List AuthEvent) (hevs : ∀ b, AuthEvent.acquire b ∉ evs)
    (b : Bool) (hb : AuthEvent.acquire b ∈ (getValidTokenStored env st evs).2.2) :
    b = true := by
  unfold getValidTokenStored at hb
  cases hst : st.stored with
  | some u =>
    cases hu : env.introspect u with
    | true =>
      simp only [hst, hu, if_true] at hb
      rw [List.mem_append] at hb
      rcases hb with hb | hb
      · exact absurd hb (hevs b)
      · simp at hb
    | false =>
      simp only [hst, hu, Bool.false_eq_true, if_false] at hb
      rcases hA : authenticate env true st with ⟨r, st2, aevs⟩
      cases r with
      | ok token =>
        simp only [hA] at hb
        rw [List.mem_append] at hb
        rcases hb with hb | hb
        · rw [List.mem_append] at hb
          rcases hb with hb | hb
          · exact absurd hb (hevs b)
          · simp at hb
        · exact authenticate_acquire_events env true st b (by rw [hA]; exact hb)
      | error e =>
        simp only [hA] at hb
        rw [List.mem_append] at hb
        rcases hb with hb | hb
        · rw [List.mem_append] at hb
          rcases hb with hb | hb
          · exact absurd hb (hevs b)
          · simp at hb
        · exact authenticate_acquire_events env true st b (by rw [hA]; exact hb)
  | none =>
    simp only [hst] at hb
    rcases hA : authenticate env true st with ⟨r, st2, aevs⟩
    cases r with
    | ok token =>
      simp only [hA] at hb
      rw [List.mem_append] at hb
      rcases hb with hb | hb
      · rw [List.mem_append] at hb
        rcases hb with hb | hb
        · exact absurd hb (hevs b)
        · simp at hb
      · exact authenticate_acquire_events env true st b (by rw [hA]; exact hb)
    | error e =>
      simp only [hA] at hb
      rw [List.mem_append] at hb
      rcases hb with hb | hb
      · rw [List.mem_append] at hb
        rcases hb with hb | hb
        · exact absurd hb (hevs b)
        · simp at hb
      · exact authenticate_acquire_events env true st b (by rw [hA]; exact hb)

/-- When the persisted token is absent or fails introspection, the
stored-token fallback runs exactly one interactive authentication: its
trace is the accumulator, acquisition-free storage/introspection events,
then authenticate's events, and its result is authenticate's (errors
wrapped by the getValidToken catch). -/
theorem getValidTokenStored_authPath (env : AuthEnv) (st : AuthState) (evs : List AuthEvent)
    (hsmiss : ∀ t2, st.stored = some t2 → env.introspect t2 = false) :
    ∃ mid, (∀ b, AuthEvent.acquire b ∉ mid) ∧
      (getValidTokenStored env st evs).2.2 = (evs ++ mid) ++ (authenticate env true st).2.2 ∧
      (∀ tok, (authenticate env true st).1 = .ok tok →
        (getValidTokenStored env st evs).1 = .ok tok) ∧
      (∀ e, (authenticate env true st).1 = .error e →
        (getValidTokenStored env st evs).1 = .error (wrapGetValidTokenError e)) := by
  cases hst : st.stored with
  | some u =>
    have hu : env.introspect u = false := hsmiss u hst
    refine ⟨[.storageRead, .introspectCall u], by simp, ?_⟩
    unfold getValidTokenStored
    rcases hA : authenticate env true st with ⟨r, st2, aevs⟩
    cases r with
    | ok token => simp [hst, hu, hA]
    | error e => simp [hst, hu, hA]
  | none =>
    refine ⟨[.storageRead], by simp, ?_⟩
    unfold getValidTokenStored
    rcases hA : authenticate env true st with ⟨r, st2, aevs⟩
    cases r with
    | ok token => simp [hst, hA]
    | error e => simp [hst, hA]

/-- C5 (amended): getValidToken follows the ladder — the in-memory
credential is returned when it introspects live (no acquisition); otherwise
(in-memory absent or failing live introspection) the persisted credential
is returned when it introspects live (no acquisition); otherwise the result
is that of one fresh interactive acquisition; and in every run whatsoever,
every acquisition event is interactive — a non-interactive acquisition is
never attempted (that fallback exists only in refreshToken). -/
theorem getValidToken_path (env : AuthEnv) (st : AuthState) :
    (∀ t, st.currentToken = some t → env.introspect t = true →
      getValidToken env st = (.ok t, st, [.introspectCall t])) ∧
    (∀ t2, (∀ t, st.currentToken = some t → env.introspect t = false) →
      st.stored = some t2 → env.introspect t2 = true →
      (getValidToken env st).1 = .ok t2 ∧
      (getValidToken env st).2.1 = { st with currentToken := some t2 } ∧
      ∀ b, AuthEvent.acquire b ∉ (getValidToken env st).2.2) ∧
    ((∀ t, st.currentToken = some t → env.introspect t = false) →
      (∀ t2, st.stored = some t2 → env.introspect t2 = false) →
      ∃ pre, (∀ b, AuthEvent.acquire b ∉ pre) ∧
        (getValidToken env st).2.2 = pre ++ (authenticate env true st).2.2 ∧
        (∀ tok, (authenticate env true st).1 = .ok tok →
          (getValidToken env st).1 = .ok tok) ∧
        (∀ e, (authenticate env true st).1 = .error e →
          (getValidToken env st).1 = .error (wrapGetValidTokenError e))) ∧
    (∀ b, AuthEvent.acquire b ∈ (getValidToken env st).2.2 → b = true) := by
  refine ⟨?_, ?_, ?_, ?_⟩
  · intro t h1 h2
    unfold getValidToken
    simp [h1, h2]
  · intro t2 hmiss h2 h3
    cases hcur : st.currentToken with
    | none =>
      unfold getValidToken getValidTokenStored
      simp [hcur, h2, h3]
    | some tm =>
      have him : env.introspect tm = false := hmiss tm hcur
      unfold getValidToken getValidTokenStored
      simp [hcur, him, h2, h3]
  · intro hmiss hsmiss
    cases hcur : st.currentToken with
    | none =>
      obtain ⟨mid, hmid, htr, hok, herr⟩ := getValidTokenStored_authPath env st [] hsmiss
      have hgv : getValidToken env st = getValidTokenStored env st [] := by
        unfold getValidToken
        rw [hcur]
      refine ⟨mid, hmid, ?_, ?_, ?_⟩
      · rw [hgv, htr, List.nil_append]
      · intro tok htok
        rw [hgv]
        exact hok tok htok
      · intro e he
        rw [hgv]
        exact herr e he
    | some tm =>
      have him : env.introspect tm = false := hmiss tm hcur
      obtain ⟨mid, hmid, htr, hok, herr⟩ :=
        getValidTokenStored_authPath env st [.introspectCall tm] hsmiss
      have hgv : getValidToken env st = getValidTokenStored env st [.introspectCall tm] := by
        unfold getValidToken
        rw [hcur]
        simp [him]
      refine ⟨[.introspectCall tm] ++ mid, ?_, ?_, ?_, ?_⟩
      · intro b
        rw [List.mem_append]
        rintro (hb | hb)
        · simp at hb
        · exact hmid b hb
      · rw [hgv, htr]
      · intro tok htok
        rw [hgv]
        exact hok tok htok
      · intro e he
        rw [hgv]
        exact herr e he
  · intro b hb
    cases hcur : st.currentToken with
    | none =>
      have hgv : getValidToken env st = getValidTokenStored env st [] := by
        unfold getValidToken
        rw [hcur]
      rw [hgv] at hb
      exact getValidTokenStored_acquire_events env st [] (by simp) b hb
    | some tm =>
      cases him : env.introspect tm with
      | true =>
        have hgv : getValidToken env st = (.ok tm, st, [.introspectCall tm]) := by
          unfold getValidToken
          rw [hcur]
          simp [him]
        rw [hgv] at hb
        simp at hb
      | false =>
        have hgv : getValidToken env st = getValidTokenStored env st [.introspectCall tm] := by
          unfold getValidToken
          rw [hcur]
          simp [him]
        rw [hgv] at hb
        exact getValidTokenStored_acquire_events env st [.introspectCall tm] (by simp) b hb

/-- C5 witness: with an in-memory token failing live introspection and a
persisted token passing it, the persisted credential is returned, cached,
and no acquisition occurs. -/
theorem getValidToken_path_witness :
    (getValidToken pathWitnessEnv
      { currentToken := some "tok-bad", stored := some "tok-s" }).1 = .ok "tok-s" ∧
    (getValidToken pathWitnessEnv
      { currentToken := some "tok-bad", stored := some "tok-s" }).2.1 =
      { currentToken := some "tok-s", stored := some "tok-s" } ∧
    ∀ b, AuthEvent.acquire b ∉
      (getValidToken pathWitnessEnv
        { currentToken := some "tok-bad", stored := some "tok-s" }).2.2 :=
  (getValidToken_path pathWitnessEnv
    { currentToken := some "tok-bad", stored := some "tok-s" }).2.1 "tok-s"
    (fun t ht => by
      simp only [Option.some.injEq] at ht
      subst ht
      decide)
    rfl rfl

/-- The shared-state invariant is symmetric in the two flags. -/
theorem shOk_swap (t : String) (sh : SharedAuth) (a b : Bool) (h : shOk t sh a b) :
    shOk t sh b a := by
  obtain ⟨h1, h2, h3, h4, h5⟩ := h
  exact ⟨h1, h2, fun hc => (h3 hc).symm, fun hc => (h4 hc).symm, by rw [h5]; omega⟩

/-- The per-task invariant is monotone in the other task's flag. -/
theorem pcInv_mono_other (t : String) (pc : TaskPC) (a o x : Bool) (h : pcInv t pc a o) :
    pcInv t pc a (o || x) := by
  cases pc <;> simp only [pcInv] at h ⊢
  · exact h
  · exact ⟨h.1, h.2.1, by simp [h.2.2]⟩
  · exact h
  · exact ⟨h.1, h.2.1, by simp [h.2.2]⟩
  · exact h
  · exact h
  · refine ⟨h.1, ?_⟩
    rcases h.2 with h2 | h2
    · exact Or.inl h2
    · exact Or.inr (by simp [h2])

/-- One instrumented step preserves the task and shared invariants. -/
theorem stepTask_pres (env : AuthEnv) (c t : String)
    (hcid : env.clientId = some c) (hit : env.identityToken true = .ok (some t))
    (hin : env.introspect t = true)
    (pc opc : TaskPC) (acq oacq : Bool) (sh : SharedAuth)
    (hsh : shOk t sh acq oacq) (hpc : pcInv t pc acq oacq) (hopc : pcInv t opc oacq acq) :
    shOk t (stepTask env pc sh).2 (acq || (sh.acquires != (stepTask env pc sh).2.acquires)) oacq ∧
    pcInv t (stepTask env pc sh).1 (acq || (sh.acquires != (stepTask env pc sh).2.acquires)) oacq ∧
    pcInv t opc oacq (acq || (sh.acquires != (stepTask env pc sh).2.acquires)) := by
  obtain ⟨hc, hs, hca, hsa, hcount⟩ := hsh
  cases pc with
  | ready =>
    simp only [pcInv] at hpc
    cases hcur : sh.current with
    | none =>
      simp only [stepTask, hcur, bne_self_eq_false, Bool.or_false]
      exact ⟨⟨hc, hs, hca, hsa, hcount⟩, hpc, hopc⟩
    | some u =>
      have hu : u = t := by
        rcases hc with hc | hc
        · rw [hcur] at hc; cases hc
        · rw [hcur] at hc; exact (Option.some.injEq _ _ ▸ hc : _)
      have hoacq : oacq = true := by
        rcases hca (by rw [hcur]; exact fun hh => by cases hh) with h | h
        · rw [hpc] at h; cases h
        · exact h
      simp only [stepTask, hcur, bne_self_eq_false, Bool.or_false]
      exact ⟨⟨hc, hs, hca, hsa, hcount⟩, ⟨hu, hpc, hoacq⟩, hopc⟩
  | introspectingMem u =>
    obtain ⟨hu, hacq, hoacq⟩ := hpc
    subst hu
    simp only [stepTask, hin, if_true, bne_self_eq_false, Bool.or_false]
    exact ⟨⟨hc, hs, hca, hsa, hcount⟩, ⟨rfl, Or.inr hoacq⟩, hopc⟩
  | readingStorage =>
    simp only [pcInv] at hpc
    cases hst : sh.stored with
    | none =>
      have hinc : (sh.acquires != sh.acquires + 1) = true := by
        simp only [bne_iff_ne, ne_eq]
        omega
      subst hpc
      simp only [stepTask, hst, startAuthPath, hcid, hinc, Bool.or_true]
      refine ⟨⟨hc, Or.inl rfl, fun _ => Or.inl rfl, fun _ => Or.inl rfl, ?_⟩, rfl, ?_⟩
      · simp only [hcount, boolNat]
        cases oacq <;> simp
      · simpa using pcInv_mono_other t opc oacq false true hopc
    | some u =>
      have hu : u = t := by
        rcases hs with hs | hs
        · rw [hst] at hs; cases hs
        · rw [hst] at hs; exact (Option.some.injEq _ _ ▸ hs : _)
      have hoacq : oacq = true := by
        rcases hsa (by rw [hst]; exact fun hh => by cases hh) with h | h
        · rw [hpc] at h; cases h
        · exact h
      simp only [stepTask, hst, bne_self_eq_false, Bool.or_false]
      exact ⟨⟨hc, hs, hca, hsa, hcount⟩, ⟨hu, hpc, hoacq⟩, hopc⟩
  | introspectingStored u =>
    obtain ⟨hu, hacq, hoacq⟩ := hpc
    subst hu
    simp only [stepTask, hin, if_true, bne_self_eq_false, Bool.or_false]
    refine ⟨⟨Or.inr rfl, hs, fun _ => Or.inr hoacq, hsa, hcount⟩,
      ⟨rfl, Or.inr hoacq⟩, hopc⟩
  | acquiring =>
    simp only [pcInv] at hpc
    simp only [stepTask, hit, bne_self_eq_false, Bool.or_false]
    exact ⟨⟨Or.inr rfl, hs, fun _ => Or.inl hpc, hsa, hcount⟩, ⟨rfl, hpc⟩, hopc⟩
  | saving u =>
    obtain ⟨hu, hacq⟩ := hpc
    subst hu
    simp only [stepTask, bne_self_eq_false, Bool.or_false]
    exact ⟨⟨hc, Or.inr rfl, hca, fun _ => Or.inl hacq, hcount⟩,
      ⟨rfl, Or.inl hacq⟩, hopc⟩
  | finished r =>
    simp only [pcInv] at hpc
    simp only [stepTask, bne_self_eq_false, Bool.or_false]
    exact ⟨⟨hc, hs, hca, hsa, hcount⟩, hpc, hopc⟩

/-- The instrumentation does not alter the machine: projecting away the
flags gives exactly sysStep. -/
theorem sysStepI_base (env : AuthEnv) (s : ConcAuthI) (w : Bool) :
    (sysStepI env s w).base = sysStep env s.base w := by
  cases w <;> rfl

/-- Projection of an instrumented run is the plain run. -/
theorem runScheduleI_base (env : AuthEnv) (sched : List Bool) :
    ∀ s : ConcAuthI, (runScheduleI env sched s).base = runSchedule env sched s.base := by
  induction sched with
  | nil => intro s; rfl
  | cons w ws ih =>
    intro s
    show (runScheduleI env ws (sysStepI env s w)).base = runSchedule env ws (sysStep env s.base w)
    rw [ih, sysStepI_base]

/-- One instrumented system step preserves the invariant. -/
theorem conc_step_pres (env : AuthEnv) (c t : String)
    (hcid : env.clientId = some c) (hit : env.identityToken true = .ok (some t))
    (hin : env.introspect t = true)
    (s : ConcAuthI) (h : ConcInv t s) (w : Bool) : ConcInv t (sysStepI env s w) := by
  obtain ⟨hsh, hA, hB⟩ := h
  cases w with
  | true =>
    have hp := stepTask_pres env c t hcid hit hin s.base.pcA s.base.pcB
      s.acqA s.acqB s.base.sh hsh hA hB
    exact ⟨hp.1, hp.2.1, hp.2.2⟩
  | false =>
    have hp := stepTask_pres env c t hcid hit hin s.base.pcB s.base.pcA
      s.acqB s.acqA s.base.sh (shOk_swap t s.base.sh s.acqA s.acqB hsh) hB hA
    exact ⟨shOk_swap t _ _ _ hp.1, hp.2.2, hp.2.1⟩

/-- The invariant holds along every schedule. -/
theorem conc_run_inv (env : AuthEnv) (c t : String)
    (hcid : env.clientId = some c) (hit : env.identityToken true = .ok (some t))
    (hin : env.introspect t = true) :
    ∀ (sched : List Bool) (s : ConcAuthI), ConcInv t s →
      ConcInv t (runScheduleI env sched s) := by
  intro sched
  induction sched with
  | nil => intro s h; exact h
  | cons w ws ih => intro s h; exact ih _ (conc_step_pres env c t hcid hit hin s h w)

/-- The invariant holds initially. -/
theorem conc_inv_init (t : String) : ConcInv t {} := by
  refine ⟨⟨Or.inl rfl, Or.inl rfl, ?_, ?_, rfl⟩, rfl, rfl⟩
  · intro hcc; exact absurd rfl hcc
  · intro hcc; exact absurd rfl hcc

/-- C6 (amended): getValidToken keeps no in-flight-acquisition slot, so a
second concurrent call does not join a pending acquisition. Over every
interleaving of two getValidToken calls starting with no credential (the
provider handing out token `t` that introspects live): at most two
interactive acquisitions occur; when both calls complete, at least one
acquisition has occurred and both calls return the acquired token; a call
that completes without having started its own acquisition is possible only
when the other call has already performed its acquisition (whose shared
token it then observes), so a single acquisition serves both calls only in
such effectively-sequential interleavings; and whenever both calls start
their own acquisition — as in any interleaving where both pass the memory
and storage checks before either acquisition completes, e.g. the strictly
alternating schedule — the provider is invoked exactly twice. Concretely,
the alternating schedule yields two invocations, the sequential one one. -/
theorem getValidToken_concurrent_acquisitions (env : AuthEnv) (c t : String)
    (hcid : env.clientId = some c)
    (hit : env.identityToken true = .ok (some t))
    (hin : env.introspect t = true) :
    (∀ sched : List Bool, (runSchedule env sched {}).sh.acquires ≤ 2) ∧
    (∀ (sched : List Bool) (rA rB : Except JsError String),
      (runSchedule env sched {}).pcA = .finished rA →
      (runSchedule env sched {}).pcB = .finished rB →
      1 ≤ (runSchedule env sched {}).sh.acquires ∧ rA = .ok t ∧ rB = .ok t) ∧
    (∀ (sched : List Bool) (rB : Except JsError String),
      (runScheduleI env sched {}).acqB = false →
      (runSchedule env sched {}).pcB = .finished rB →
      (runScheduleI env sched {}).acqA = true ∧ rB = .ok t) ∧
    (∀ (sched : List Bool) (rA : Except JsError String),
      (runScheduleI env sched {}).acqA = false →
      (runSchedule env sched {}).pcA = .finished rA →
      (runScheduleI env sched {}).acqB = true ∧ rA = .ok t) ∧
    (∀ sched : List Bool,
      (runScheduleI env sched {}).acqA = true →
      (runScheduleI env sched {}).acqB = true →
      (runSchedule env sched {}).sh.acquires = 2) ∧
    (runSchedule env overlappedSchedule {}).sh.acquires = 2 ∧
    (runSchedule env sequentialSchedule {}).sh.acquires = 1 := by
  have hbase : ∀ sched : List Bool,
      (runScheduleI env sched {}).base = runSchedule env sched {} :=
    fun sched => runScheduleI_base env sched {}
  have hinv : ∀ sched : List Bool, ConcInv t (runScheduleI env sched {}) :=
    fun sched => conc_run_inv env c t hcid hit hin sched {} (conc_inv_init t)
  refine ⟨?_, ?_, ?_, ?_, ?_, ?_, ?_⟩
  · intro sched
    obtain ⟨⟨-, -, -, -, hcount⟩, -, -⟩ := hinv sched
    rw [← hbase sched, hcount]
    cases (runScheduleI env sched {}).acqA <;>
      cases (runScheduleI env sched {}).acqB <;> simp [boolNat]
  · intro sched rA rB hfA hfB
    obtain ⟨⟨-, -, -, -, hcount⟩, hA, hB⟩ := hinv sched
    rw [← hbase sched] at hfA hfB ⊢
    rw [hfA] at hA
    rw [hfB] at hB
    simp only [pcInv] at hA hB
    refine ⟨?_, hA.1, hB.1⟩
    rw [hcount]
    rcases hA.2 with h2 | h2 <;> rw [h2] <;> cases ((runScheduleI env sched {}).acqB) <;>
      cases ((runScheduleI env sched {}).acqA) <;> simp_all [boolNat]
  · intro sched rB hacqB hfB
    obtain ⟨-, -, hB⟩ := hinv sched
    rw [← hbase sched] at hfB
    rw [hfB] at hB
    simp only [pcInv] at hB
    refine ⟨?_, hB.1⟩
    rcases hB.2 with h2 | h2
    · rw [hacqB] at h2; cases h2
    · exact h2
  · intro sched rA hacqA hfA
    obtain ⟨-, hA, -⟩ := hinv sched
    rw [← hbase sched] at hfA
    rw [hfA] at hA
    simp only [pcInv] at hA
    refine ⟨?_, hA.1⟩
    rcases hA.2 with h2 | h2
    · rw [hacqA] at h2; cases h2
    · exact h2
  · intro sched ha hb
    obtain ⟨⟨-, -, -, -, hcount⟩, -, -⟩ := hinv sched
    rw [← hbase sched, hcount, ha, hb]
    simp [boolNat]
  · simp [runSchedule, sysStep, stepTask, startAuthPath, overlappedSchedule, hcid, hit, hin]
  · simp [runSchedule, sysStep, stepTask, startAuthPath, sequentialSchedule, hcid, hit, hin]

/-- C6 witness: the concrete environment of the counterexample discharges
the amended theorem's hypotheses; its alternating schedule invokes the
provider twice, its sequential schedule once. -/
theorem getValidToken_concurrent_acquisitions_witness :
    (runSchedule cexAuthEnv overlappedSchedule {}).sh.acquires = 2 ∧
    (runSchedule cexAuthEnv sequentialSchedule {}).sh.acquires = 1 := by
  have h := getValidToken_concurrent_acquisitions cexAuthEnv "client-1" "tok-i" rfl rfl rfl
  exact ⟨h.2.2.2.2.2.1, h.2.2.2.2.2.2⟩
